import Mathlib

/-!
Shallow embedding of `z3dsl/reasoning/structured_program.py` and
`z3dsl/reasoning/program_generator.py`.

JSON documents handed to the pydantic models are modelled as `JValue`
trees; Python `dict`s appear as association lists whose keys are
distinct in every document that can actually arise from `json.loads`
(a Python dict cannot hold a key twice).  Each pydantic `BaseModel`
with `model_config = ConfigDict(extra="forbid")` becomes a Lean
structure together with a validator `JValue → Option X` that mirrors
the behaviour of pydantic: the input must be a mapping, every key must be
one of the declared fields, required fields must be present with the
declared type, optional fields default as declared.
-/

/-- JSON values as produced by `json.loads` / consumed by pydantic.
Numbers are modelled as integers; no claim depends on floats. -/
inductive JValue where
  | str (s : String)
  | bool (b : Bool)
  | num (n : Int)
  | null
  | arr (xs : List JValue)
  | obj (kvs : List (String × JValue))

/-- Python `dict` lookup on the association-list model. -/
def jlookup (kvs : List (String × JValue)) (k : String) : Option JValue :=
  match kvs with
  | [] => none
  | (k', v) :: rest => if k' = k then some v else jlookup rest k

/-- The closed-schema check done by `extra="forbid"`: every key of the
input mapping must be a declared field name. -/
def keysAllowed (allowed : List String) (kvs : List (String × JValue)) : Bool :=
  kvs.all (fun kv => allowed.contains kv.1)

/-- Required `str` field: present with a string value, else error. -/
def vReqStr (kvs : List (String × JValue)) (k : String) : Option String :=
  match jlookup kvs k with
  | some (.str s) => some s
  | _ => none

/-- The `Optional[str] = None` field: missing or null gives `none`. -/
def vOptStr (kvs : List (String × JValue)) (k : String) : Option (Option String) :=
  match jlookup kvs k with
  | none => some none
  | some .null => some none
  | some (.str s) => some (some s)
  | some _ => none

/-- Validate a JSON array whose elements must all be strings. -/
def strListOf : List JValue → Option (List String)
  | [] => some []
  | .str s :: rest =>
    match strListOf rest with
    | some ss => some (s :: ss)
    | none => none
  | _ :: _ => none

/-- The `Optional[List[str]] = None` field. -/
def vOptStrList (kvs : List (String × JValue)) (k : String) : Option (Option (List String)) :=
  match jlookup kvs k with
  | none => some none
  | some .null => some none
  | some (.arr xs) =>
    match strListOf xs with
    | some ss => some (some ss)
    | none => none
  | some _ => none

/-- The `List[str] = Field(default_factory=list)` field. -/
def vStrListD (kvs : List (String × JValue)) (k : String) : Option (List String) :=
  match jlookup kvs k with
  | none => some []
  | some (.arr xs) => strListOf xs
  | some _ => none

/-- The `bool` field with a default value (missing key gives the default). -/
def vBoolDefault (kvs : List (String × JValue)) (k : String) (d : Bool) : Option Bool :=
  match jlookup kvs k with
  | none => some d
  | some (.bool b) => some b
  | some _ => none

/-- Validate every element of a list with `f`, failing if any element fails. -/
def validateList {α : Type} (f : JValue → Option α) : List JValue → Option (List α)
  | [] => some []
  | v :: vs =>
    match f v, validateList f vs with
    | some x, some xs => some (x :: xs)
    | _, _ => none

/-- The `List[X] = Field(default_factory=list)` field of submodels. -/
def vList {α : Type} (f : JValue → Option α) (kvs : List (String × JValue))
    (k : String) : Option (List α) :=
  match jlookup kvs k with
  | none => some []
  | some (.arr xs) => validateList f xs
  | some _ => none

/-- Validate every value of a mapping with `f`, keeping the keys. -/
def validateDict {α : Type} (f : JValue → Option α) :
    List (String × JValue) → Option (List (String × α))
  | [] => some []
  | (k, v) :: rest =>
    match f v, validateDict f rest with
    | some x, some xs => some ((k, x) :: xs)
    | _, _ => none

/-- The `Dict[str, X] = Field(default_factory=dict)` field of submodels. -/
def vDict {α : Type} (f : JValue → Option α) (kvs : List (String × JValue))
    (k : String) : Option (List (String × α)) :=
  match jlookup kvs k with
  | none => some []
  | some (.obj m) => validateDict f m
  | some _ => none

/-- The `Optional[X] = None` field holding a submodel. -/
def vOptModel {α : Type} (f : JValue → Option α) (kvs : List (String × JValue))
    (k : String) : Option (Option α) :=
  match jlookup kvs k with
  | none => some none
  | some .null => some none
  | some v =>
    match f v with
    | some x => some (some x)
    | none => none

/-- The `SortDefinition` (structured_program.py lines 11-19). -/
structure SortDefinition where
  name : String
  type : String
  values : Option (List String)
  description : Option String

/-- The `FunctionDefinition` (lines 22-30). -/
structure FunctionDefinition where
  name : String
  domain : List String
  range : String
  description : Option String

/-- The `VariableDefinition` (lines 33-40). -/
structure VariableDefinition where
  name : String
  sort : String
  description : Option String

/-- The `KnowledgeAssertion` (lines 43-50). -/
structure KnowledgeAssertion where
  assertion : String
  value : Bool
  description : Option String

/-- The `KnowledgeEntry = Union[str, KnowledgeAssertion]` (line 53). -/
inductive KnowledgeEntry where
  | kstr (s : String)
  | kassert (a : KnowledgeAssertion)

/-- The `QuantifiedVariable` (lines 56-62). -/
structure QuantifiedVariable where
  name : String
  sort : String

/-- The `RuleImplication` (lines 65-71). -/
structure RuleImplication where
  antecedent : String
  consequent : String

/-- The `RuleDefinition` (lines 74-83). -/
structure RuleDefinition where
  name : Option String
  «forall» : Option (List QuantifiedVariable)
  implies : Option RuleImplication
  constraint : Option String
  description : Option String

/-- The `VerificationImplication` (lines 86-92). -/
structure VerificationImplication where
  antecedent : String
  consequent : String

/-- The `VerificationDefinition` (lines 95-105). -/
structure VerificationDefinition where
  name : Option String
  constraint : Option String
  «exists» : Option (List QuantifiedVariable)
  «forall» : Option (List QuantifiedVariable)
  implies : Option VerificationImplication
  description : Option String

/-- The `ObjectiveDefinition` (lines 108-114); `type` is
`Literal["maximize", "minimize"]`, enforced by its validator. -/
structure ObjectiveDefinition where
  type : String
  expression : String

/-- The `OptimizationConfig` (lines 117-125). -/
structure OptimizationConfig where
  «variables» : List VariableDefinition
  constraints : List String
  objectives : List ObjectiveDefinition
  description : Option String

/-- The `members: Union[List[str], Dict[str, str]]` of `ConstantDefinition`. -/
inductive Members where
  | mlist (xs : List String)
  | mdict (kvs : List (String × String))

/-- The `ConstantDefinition` (lines 128-135). -/
structure ConstantDefinition where
  sort : String
  members : Members
  description : Option String

/-- The `StructuredProgram` (lines 138-151). -/
structure StructuredProgram where
  sorts : List SortDefinition
  functions : List FunctionDefinition
  constants : List (String × ConstantDefinition)
  «variables» : List VariableDefinition
  knowledge_base : List KnowledgeEntry
  rules : List RuleDefinition
  verifications : List VerificationDefinition
  optimization : Option OptimizationConfig
  actions : List String

/-- pydantic validation of `SortDefinition` (`extra="forbid"`). -/
def validateSortDefinition : JValue → Option SortDefinition
  | .obj kvs =>
    if keysAllowed ["name", "type", "values", "description"] kvs then
      match vReqStr kvs "name", vReqStr kvs "type",
            vOptStrList kvs "values", vOptStr kvs "description" with
      | some n, some t, some vs, some d => some ⟨n, t, vs, d⟩
      | _, _, _, _ => none
    else none
  | _ => none

/-- pydantic validation of `FunctionDefinition`. -/
def validateFunctionDefinition : JValue → Option FunctionDefinition
  | .obj kvs =>
    if keysAllowed ["name", "domain", "range", "description"] kvs then
      match vReqStr kvs "name",
            (match jlookup kvs "domain" with
             | some (.arr xs) => strListOf xs
             | _ => none),
            vReqStr kvs "range", vOptStr kvs "description" with
      | some n, some dom, some r, some d => some ⟨n, dom, r, d⟩
      | _, _, _, _ => none
    else none
  | _ => none

/-- pydantic validation of `VariableDefinition`. -/
def validateVariableDefinition : JValue → Option VariableDefinition
  | .obj kvs =>
    if keysAllowed ["name", "sort", "description"] kvs then
      match vReqStr kvs "name", vReqStr kvs "sort", vOptStr kvs "description" with
      | some n, some s, some d => some ⟨n, s, d⟩
      | _, _, _ => none
    else none
  | _ => none

/-- pydantic validation of `KnowledgeAssertion`. -/
def validateKnowledgeAssertion : JValue → Option KnowledgeAssertion
  | .obj kvs =>
    if keysAllowed ["assertion", "value", "description"] kvs then
      match vReqStr kvs "assertion", vBoolDefault kvs "value" true,
            vOptStr kvs "description" with
      | some a, some v, some d => some ⟨a, v, d⟩
      | _, _, _ => none
    else none
  | _ => none

/-- pydantic validation of `KnowledgeEntry = Union[str, KnowledgeAssertion]`:
a JSON string validates as `str`, a mapping as `KnowledgeAssertion`,
anything else fails both union members. -/
def validateKnowledgeEntry (v : JValue) : Option KnowledgeEntry :=
  match v with
  | .str s => some (.kstr s)
  | _ =>
    match validateKnowledgeAssertion v with
    | some a => some (.kassert a)
    | none => none

/-- pydantic validation of `QuantifiedVariable`. -/
def validateQuantifiedVariable : JValue → Option QuantifiedVariable
  | .obj kvs =>
    if keysAllowed ["name", "sort"] kvs then
      match vReqStr kvs "name", vReqStr kvs "sort" with
      | some n, some s => some ⟨n, s⟩
      | _, _ => none
    else none
  | _ => none

/-- The `Optional[List[QuantifiedVariable]] = None` field. -/
def vOptQVList (kvs : List (String × JValue)) (k : String) :
    Option (Option (List QuantifiedVariable)) :=
  match jlookup kvs k with
  | none => some none
  | some .null => some none
  | some (.arr xs) =>
    match validateList validateQuantifiedVariable xs with
    | some qs => some (some qs)
    | none => none
  | some _ => none

/-- pydantic validation of `RuleImplication`. -/
def validateRuleImplication : JValue → Option RuleImplication
  | .obj kvs =>
    if keysAllowed ["antecedent", "consequent"] kvs then
      match vReqStr kvs "antecedent", vReqStr kvs "consequent" with
      | some a, some c => some ⟨a, c⟩
      | _, _ => none
    else none
  | _ => none

/-- pydantic validation of `RuleDefinition`. -/
def validateRuleDefinition : JValue → Option RuleDefinition
  | .obj kvs =>
    if keysAllowed ["name", "forall", "implies", "constraint", "description"] kvs then
      match vOptStr kvs "name", vOptQVList kvs "forall",
            vOptModel validateRuleImplication kvs "implies",
            vOptStr kvs "constraint", vOptStr kvs "description" with
      | some n, some fa, some im, some c, some d => some ⟨n, fa, im, c, d⟩
      | _, _, _, _, _ => none
    else none
  | _ => none

/-- pydantic validation of `VerificationImplication`. -/
def validateVerificationImplication : JValue → Option VerificationImplication
  | .obj kvs =>
    if keysAllowed ["antecedent", "consequent"] kvs then
      match vReqStr kvs "antecedent", vReqStr kvs "consequent" with
      | some a, some c => some ⟨a, c⟩
      | _, _ => none
    else none
  | _ => none

/-- pydantic validation of `VerificationDefinition`. -/
def validateVerificationDefinition : JValue → Option VerificationDefinition
  | .obj kvs =>
    if keysAllowed ["name", "constraint", "exists", "forall", "implies", "description"] kvs then
      match vOptStr kvs "name", vOptStr kvs "constraint",
            vOptQVList kvs "exists", vOptQVList kvs "forall",
            vOptModel validateVerificationImplication kvs "implies",
            vOptStr kvs "description" with
      | some n, some c, some ex, some fa, some im, some d =>
        some ⟨n, c, ex, fa, im, d⟩
      | _, _, _, _, _, _ => none
    else none
  | _ => none

/-- pydantic validation of `ObjectiveDefinition`; the `type` field is
`Literal["maximize", "minimize"]`. -/
def validateObjectiveDefinition : JValue → Option ObjectiveDefinition
  | .obj kvs =>
    if keysAllowed ["type", "expression"] kvs then
      match vReqStr kvs "type", vReqStr kvs "expression" with
      | some t, some e =>
        if t = "maximize" ∨ t = "minimize" then some ⟨t, e⟩ else none
      | _, _ => none
    else none
  | _ => none

/-- pydantic validation of `OptimizationConfig`. -/
def validateOptimizationConfig : JValue → Option OptimizationConfig
  | .obj kvs =>
    if keysAllowed ["variables", "constraints", "objectives", "description"] kvs then
      match vList validateVariableDefinition kvs "variables",
            vStrListD kvs "constraints",
            vList validateObjectiveDefinition kvs "objectives",
            vOptStr kvs "description" with
      | some vs, some cs, some os, some d => some ⟨vs, cs, os, d⟩
      | _, _, _, _ => none
    else none
  | _ => none

/-- Validate a mapping with string values (`Dict[str, str]`). -/
def strDictOf : List (String × JValue) → Option (List (String × String))
  | [] => some []
  | (k, .str s) :: rest =>
    match strDictOf rest with
    | some ss => some ((k, s) :: ss)
    | none => none
  | _ :: _ => none

/-- pydantic validation of `ConstantDefinition`; `members` is
`Union[List[str], Dict[str, str]]`. -/
def validateConstantDefinition : JValue → Option ConstantDefinition
  | .obj kvs =>
    if keysAllowed ["sort", "members", "description"] kvs then
      match vReqStr kvs "sort",
            (match jlookup kvs "members" with
             | some (.arr xs) =>
               match strListOf xs with
               | some ss => some (Members.mlist ss)
               | none => none
             | some (.obj m) =>
               match strDictOf m with
               | some ss => some (Members.mdict ss)
               | none => none
             | _ => none),
            vOptStr kvs "description" with
      | some s, some ms, some d => some ⟨s, ms, d⟩
      | _, _, _ => none
    else none
  | _ => none

/-- The nine top-level field names of `StructuredProgram`. -/
def structuredProgramKeys : List String :=
  ["sorts", "functions", "constants", "variables", "knowledge_base",
   "rules", "verifications", "optimization", "actions"]

/-- pydantic validation of `StructuredProgram` (`extra="forbid"`,
every field defaulted as declared on lines 141-149). -/
def validateStructuredProgram : JValue → Option StructuredProgram
  | .obj kvs =>
    if keysAllowed structuredProgramKeys kvs then
      match vList validateSortDefinition kvs "sorts",
            vList validateFunctionDefinition kvs "functions",
            vDict validateConstantDefinition kvs "constants",
            vList validateVariableDefinition kvs "variables",
            vList validateKnowledgeEntry kvs "knowledge_base",
            vList validateRuleDefinition kvs "rules",
            vList validateVerificationDefinition kvs "verifications",
            vOptModel validateOptimizationConfig kvs "optimization",
            vStrListD kvs "actions" with
      | some so, some fu, some co, some va, some kb, some ru, some ve, some op, some ac =>
        some ⟨so, fu, co, va, kb, ru, ve, op, ac⟩
      | _, _, _, _, _, _, _, _, _ => none
    else none
  | _ => none

/-!
`StructuredProgram.to_dsl_dict` (structured_program.py lines 153-192).
`dump_model(obj)` is `obj.model_dump(mode="python", exclude_none=True)`:
a dict holding every field in declaration order whose value is not
`None`, submodels dumped recursively.
-/

/-- Dump an `Optional[str]` field, dropped when `None` (`exclude_none`). -/
def optStrField (k : String) : Option String → List (String × JValue)
  | some s => [(k, .str s)]
  | none => []

/-- The `dump_model` for `SortDefinition`. -/
def SortDefinition.dump (s : SortDefinition) : JValue :=
  .obj ([("name", .str s.name), ("type", .str s.type)] ++
    (match s.values with
     | some vs => [("values", .arr (vs.map .str))]
     | none => []) ++
    optStrField "description" s.description)

/-- The `dump_model` for `FunctionDefinition`. -/
def FunctionDefinition.dump (f : FunctionDefinition) : JValue :=
  .obj ([("name", .str f.name), ("domain", .arr (f.domain.map .str)),
         ("range", .str f.range)] ++
    optStrField "description" f.description)

/-- The `dump_model` for `VariableDefinition`. -/
def VariableDefinition.dump (v : VariableDefinition) : JValue :=
  .obj ([("name", .str v.name), ("sort", .str v.sort)] ++
    optStrField "description" v.description)

/-- The `dump_model` for `KnowledgeAssertion`; `value` is a `bool`, never
`None`, so it always appears. -/
def KnowledgeAssertion.dump (a : KnowledgeAssertion) : JValue :=
  .obj ([("assertion", .str a.assertion), ("value", .bool a.value)] ++
    optStrField "description" a.description)

/-- The knowledge-base loop of `to_dsl_dict` (lines 163-168): a
`BaseModel` entry is dumped, a bare string is appended unchanged. -/
def KnowledgeEntry.dump : KnowledgeEntry → JValue
  | .kstr s => .str s
  | .kassert a => a.dump

/-- The `dump_model` for `QuantifiedVariable`. -/
def QuantifiedVariable.dump (q : QuantifiedVariable) : JValue :=
  .obj [("name", .str q.name), ("sort", .str q.sort)]

/-- The `dump_model` for `RuleImplication`. -/
def RuleImplication.dump (i : RuleImplication) : JValue :=
  .obj [("antecedent", .str i.antecedent), ("consequent", .str i.consequent)]

/-- The `dump_model` for `RuleDefinition`. -/
def RuleDefinition.dump (r : RuleDefinition) : JValue :=
  .obj (optStrField "name" r.name ++
    (match r.«forall» with
     | some qs => [("forall", .arr (qs.map QuantifiedVariable.dump))]
     | none => []) ++
    (match r.implies with
     | some i => [("implies", i.dump)]
     | none => []) ++
    optStrField "constraint" r.constraint ++
    optStrField "description" r.description)

/-- The `dump_model` for `VerificationImplication`. -/
def VerificationImplication.dump (i : VerificationImplication) : JValue :=
  .obj [("antecedent", .str i.antecedent), ("consequent", .str i.consequent)]

/-- The `dump_model` for `VerificationDefinition`. -/
def VerificationDefinition.dump (v : VerificationDefinition) : JValue :=
  .obj (optStrField "name" v.name ++
    optStrField "constraint" v.constraint ++
    (match v.«exists» with
     | some qs => [("exists", .arr (qs.map QuantifiedVariable.dump))]
     | none => []) ++
    (match v.«forall» with
     | some qs => [("forall", .arr (qs.map QuantifiedVariable.dump))]
     | none => []) ++
    (match v.implies with
     | some i => [("implies", i.dump)]
     | none => []) ++
    optStrField "description" v.description)

/-- The `dump_model` for `ObjectiveDefinition`. -/
def ObjectiveDefinition.dump (o : ObjectiveDefinition) : JValue :=
  .obj [("type", .str o.type), ("expression", .str o.expression)]

/-- The `dump_model` for `OptimizationConfig`. -/
def OptimizationConfig.dump (oc : OptimizationConfig) : JValue :=
  .obj ([("variables", .arr (oc.«variables».map VariableDefinition.dump)),
         ("constraints", .arr (oc.constraints.map .str)),
         ("objectives", .arr (oc.objectives.map ObjectiveDefinition.dump))] ++
    optStrField "description" oc.description)

/-- The `dump_model` for the `members` union field. -/
def Members.dump : Members → JValue
  | .mlist xs => .arr (xs.map .str)
  | .mdict kvs => .obj (kvs.map (fun kv => (kv.1, .str kv.2)))

/-- The `dump_model` for `ConstantDefinition`. -/
def ConstantDefinition.dump (c : ConstantDefinition) : JValue :=
  .obj ([("sort", .str c.sort), ("members", c.members.dump)] ++
    optStrField "description" c.description)

/-- The `StructuredProgram.to_dsl_dict` (lines 153-192).  The returned dict
holds the eight unconditional keys in the insertion order of lines
175-187; line 173 gives `actions = list(self.actions) if self.actions
else ["verify_conditions"]` (an empty list is falsy in Python); line
189-190 append `optimization` only when it is not `None`. -/
def to_dsl_dict (p : StructuredProgram) : JValue :=
  .obj ([("sorts", .arr (p.sorts.map SortDefinition.dump)),
         ("functions", .arr (p.functions.map FunctionDefinition.dump)),
         ("constants", .obj (p.constants.map (fun kv => (kv.1, kv.2.dump)))),
         ("variables", .arr (p.«variables».map VariableDefinition.dump)),
         ("knowledge_base", .arr (p.knowledge_base.map KnowledgeEntry.dump)),
         ("rules", .arr (p.rules.map RuleDefinition.dump)),
         ("verifications", .arr (p.verifications.map VerificationDefinition.dump)),
         ("actions", .arr ((if p.actions.isEmpty then ["verify_conditions"]
                            else p.actions).map .str))] ++
    (match p.optimization with
     | some oc => [("optimization", oc.dump)]
     | none => []))

/-- Look a key up in a JSON object value. -/
def jvGet (v : JValue) (k : String) : Option JValue :=
  match v with
  | .obj kvs => jlookup kvs k
  | _ => none

/-!
Predicate formalising "the document contains a key outside the fixed
schema, at the top level or inside any nested definition" (claim C1).
It mirrors the schema positions only; it is deliberately `false` on
documents whose shape already diverges from the schema in other ways.
-/

/-- A mapping carrying a key outside the allowed set. -/
def objUnknown (allowed : List String) : JValue → Bool
  | .obj kvs => !keysAllowed allowed kvs
  | _ => false

/-- Unknown key inside a sort definition. -/
def sortUnknown : JValue → Bool :=
  objUnknown ["name", "type", "values", "description"]

/-- Unknown key inside a function definition. -/
def funcUnknown : JValue → Bool :=
  objUnknown ["name", "domain", "range", "description"]

/-- Unknown key inside a variable definition. -/
def varUnknown : JValue → Bool :=
  objUnknown ["name", "sort", "description"]

/-- Unknown key inside a knowledge assertion (bare strings have none). -/
def kbUnknown : JValue → Bool :=
  objUnknown ["assertion", "value", "description"]

/-- Unknown key inside a quantified variable. -/
def qvUnknown : JValue → Bool :=
  objUnknown ["name", "sort"]

/-- Unknown key inside a rule, including its nested quantifier prefix
and implication. -/
def ruleUnknown (v : JValue) : Bool :=
  objUnknown ["name", "forall", "implies", "constraint", "description"] v ||
  (match v with
   | .obj kvs =>
     (match jlookup kvs "forall" with
      | some (.arr xs) => xs.any qvUnknown
      | _ => false) ||
     (match jlookup kvs "implies" with
      | some w => objUnknown ["antecedent", "consequent"] w
      | none => false)
   | _ => false)

/-- Unknown key inside a verification, including its nested quantifier
prefixes and implication. -/
def verifUnknown (v : JValue) : Bool :=
  objUnknown ["name", "constraint", "exists", "forall", "implies", "description"] v ||
  (match v with
   | .obj kvs =>
     (match jlookup kvs "exists" with
      | some (.arr xs) => xs.any qvUnknown
      | _ => false) ||
     (match jlookup kvs "forall" with
      | some (.arr xs) => xs.any qvUnknown
      | _ => false) ||
     (match jlookup kvs "implies" with
      | some w => objUnknown ["antecedent", "consequent"] w
      | none => false)
   | _ => false)

/-- Unknown key inside an objective. -/
def objectiveUnknown : JValue → Bool :=
  objUnknown ["type", "expression"]

/-- Unknown key inside the optimization section, including its nested
variables and objectives. -/
def optUnknown (v : JValue) : Bool :=
  objUnknown ["variables", "constraints", "objectives", "description"] v ||
  (match v with
   | .obj kvs =>
     (match jlookup kvs "variables" with
      | some (.arr xs) => xs.any varUnknown
      | _ => false) ||
     (match jlookup kvs "objectives" with
      | some (.arr xs) => xs.any objectiveUnknown
      | _ => false)
   | _ => false)

/-- Unknown key inside a constant group (the keys of a `members`
mapping are data of type `Dict[str, str]`, not schema fields). -/
def constUnknown : JValue → Bool :=
  objUnknown ["sort", "members", "description"]

/-- Any-element test on a JSON-array field. -/
def listFieldAny (p : JValue → Bool) (kvs : List (String × JValue)) (k : String) : Bool :=
  match jlookup kvs k with
  | some (.arr xs) => xs.any p
  | _ => false

/-- The document carries a key outside the fixed schema, at the top
level or inside any nested definition. -/
def docHasUnknownKey : JValue → Bool
  | .obj kvs =>
    !keysAllowed structuredProgramKeys kvs ||
    listFieldAny sortUnknown kvs "sorts" ||
    listFieldAny funcUnknown kvs "functions" ||
    (match jlookup kvs "constants" with
     | some (.obj m) => m.any (fun kv => constUnknown kv.2)
     | _ => false) ||
    listFieldAny varUnknown kvs "variables" ||
    listFieldAny kbUnknown kvs "knowledge_base" ||
    listFieldAny ruleUnknown kvs "rules" ||
    listFieldAny verifUnknown kvs "verifications" ||
    (match jlookup kvs "optimization" with
     | some w => optUnknown w
     | none => false)
  | _ => false

/-!
Embedding of `z3dsl/reasoning/program_generator.py`.  The external
collaborators are passed in as functions: `structuredApi` stands for
`_call_structured_api` (already returning the pair
`(parsed.to_dsl_dict(), parsed.model_dump_json(...))` on success and
`None` on any failure, since that helper catches its own exceptions),
`chatApi` for `_call_chat_completion` (returning the assistant text or
raising, modelled as `Except`), `loads` for `json.loads` on a string
(parsed value or `JSONDecodeError`), and `build_prompt` for the prompt
template module, which is outside the compiled sources.
-/

/-- One chat message (a Python `{"role": ..., "content": ...}` dict). -/
structure Message where
  role : String
  content : String

/-- The `GenerationResult` (program_generator.py lines 21-28). -/
structure GenerationResult where
  json_program : Option JValue
  raw_response : String
  success : Bool
  error : Option String

/-- The `STRUCTURED_SYSTEM_PROMPT` (lines 15-18). -/
def STRUCTURED_SYSTEM_PROMPT : String :=
  "You are an assistant that produces Z3 DSL programs. " ++
  "Always respond with JSON that matches the provided schema."

/-- The `_initial_messages` (lines 198-204). -/
def initial_messages (prompt : String) : List Message :=
  [⟨"system", STRUCTURED_SYSTEM_PROMPT⟩, ⟨"user", prompt⟩]

/-- The `_feedback_messages` (lines 206-216). -/
def feedback_messages (prompt previous_response feedback_message : String) :
    List Message :=
  [⟨"system", STRUCTURED_SYSTEM_PROMPT⟩, ⟨"user", prompt⟩,
   ⟨"assistant", previous_response⟩, ⟨"user", feedback_message⟩]

/-- The feedback text built on lines 114-117:
an f-string embedding the error trace between two fixed parts. -/
def feedback_message_text (error_trace : String) : String :=
  "There was an error processing your response:\n" ++ error_trace ++
  "\nPlease fix the JSON accordingly."

/-- Python `\s` on the ASCII range (the claims use no exotic
whitespace): space, tab, newline, carriage return, vertical tab,
form feed. -/
def pySpace (c : Char) : Bool :=
  c = ' ' || c = '\t' || c = '\n' || c = '\r' || c = '\x0b' || c = '\x0c'

/-- Greedy `\s*`. -/
def dropSpaces (s : List Char) : List Char := s.dropWhile pySpace

/-- Lazy scan of `[\s\S]*?\}` followed by `\s*` and a literal ` ``` `:
return the characters up to and including the first `}` whose suffix,
after whitespace, begins with three backquotes.  This is exactly the
backtracking behaviour of the lazy quantifier: the shortest body wins,
and a `}` without the closing fence is swallowed as body text. -/
def fencedClose : List Char → Option (List Char)
  | [] => none
  | c :: rest =>
    if c = '}' && ("```".toList.isPrefixOf (dropSpaces rest)) then
      some ['}']
    else
      match fencedClose rest with
      | some t => some (c :: t)
      | none => none

/-- One anchored attempt of the pattern
` ```json\s*(\{[\s\S]*?\})\s*``` ` (line 228): the literal `` ```json ``,
greedy whitespace, the group `{...}`, whitespace, the closing fence.
Returns the text of capture group 1. -/
def fencedAt (s : List Char) : Option (List Char) :=
  if "```json".toList.isPrefixOf s then
    match dropSpaces (s.drop 7) with
    | '{' :: body =>
      match fencedClose body with
      | some t => some ('{' :: t)
      | none => none
    | _ => none
  else none

/-- The `re.search` of the fenced pattern: the leftmost position at which
an anchored attempt succeeds wins. -/
def fencedSearch : List Char → Option (List Char)
  | [] => none
  | c :: rest =>
    match fencedAt (c :: rest) with
    | some g => some g
    | none => fencedSearch rest

/-- Longest prefix ending at the last `}` of the list (the greedy
`[\s\S]*\}` suffix of the brace fallback pattern). -/
def lastCloseTo : List Char → Option (List Char)
  | [] => none
  | c :: rest =>
    match lastCloseTo rest with
    | some t => some (c :: t)
    | none => if c = '}' then some ['}'] else none

/-- The `re.search(r"\{[\s\S]*\}", s)` (line 242): the match starts at the
first `{` that is followed by a `}` and extends greedily to the last
`}` of the text. -/
def braceSearch : List Char → Option (List Char)
  | [] => none
  | c :: rest =>
    if c = '{' then
      match lastCloseTo rest with
      | some t => some ('{' :: t)
      | none => braceSearch rest
    else braceSearch rest

/-- The `_extract_json` (lines 218-249).  When the fenced pattern matches,
its group is parsed and a `JSONDecodeError` yields `None` without ever
reaching the fallback; only when no fenced block matches is the bare
`{...}` span parsed, a failure there also yielding `None`. -/
def extract_json (loads : String → Except String JValue)
    (markdown_content : String) : Option JValue :=
  match fencedSearch markdown_content.toList with
  | some g =>
    match loads (String.mk g) with
    | .ok j => some j
    | .error _ => none
  | none =>
    match braceSearch markdown_content.toList with
    | some g =>
      match loads (String.mk g) with
      | .ok j => some j
      | .error _ => none
    | none => none

/-- Python truthiness of a parsed JSON value (`if json_program:` on
line 82 runs the success branch only for a truthy dict). -/
def jvTruthy : JValue → Bool
  | .str s => !s.isEmpty
  | .bool b => b
  | .num n => n != 0
  | .null => false
  | .arr xs => !xs.isEmpty
  | .obj kvs => !kvs.isEmpty

/-- The `generate` (lines 44-91): try the structured-output path; fall
back to chat completions, turning an exception into a failure result
with empty raw text and the exception message; then extract JSON
from the raw text, failing with the fixed message when no truthy dict
comes out. -/
def generate (structuredApi : List Message → Option (JValue × String))
    (chatApi : List Message → Except String String)
    (loads : String → Except String JValue)
    (build_prompt : String → String) (question : String) : GenerationResult :=
  let prompt := build_prompt question
  let messages := initial_messages prompt
  match structuredApi messages with
  | some (jp, raw) => ⟨some jp, raw, true, none⟩
  | none =>
    match chatApi messages with
    | .error exc => ⟨none, "", false, some exc⟩
    | .ok raw =>
      match extract_json loads raw with
      | some jp =>
        if jvTruthy jp then ⟨some jp, raw, true, none⟩
        else ⟨none, raw, false, some "Failed to extract valid JSON from response"⟩
      | none => ⟨none, raw, false, some "Failed to extract valid JSON from response"⟩

/-- The `generate_with_feedback` (lines 93-147): same flow as `generate`
but over the four feedback messages and with the feedback-specific
failure text. -/
def generate_with_feedback (structuredApi : List Message → Option (JValue × String))
    (chatApi : List Message → Except String String)
    (loads : String → Except String JValue)
    (build_prompt : String → String)
    (question error_trace previous_response : String) : GenerationResult :=
  let prompt := build_prompt question
  let messages := feedback_messages prompt previous_response
    (feedback_message_text error_trace)
  match structuredApi messages with
  | some (jp, raw) => ⟨some jp, raw, true, none⟩
  | none =>
    match chatApi messages with
    | .error exc => ⟨none, "", false, some exc⟩
    | .ok raw =>
      match extract_json loads raw with
      | some jp =>
        if jvTruthy jp then ⟨some jp, raw, true, none⟩
        else ⟨none, raw, false, some "Failed to extract valid JSON from feedback response"⟩
      | none => ⟨none, raw, false, some "Failed to extract valid JSON from feedback response"⟩

/-!
A small object-level model of Python lists for the aliasing part of
claim C8.  A heap maps addresses to list contents; `list(xs)` and a
list display both allocate a fresh address.  Line 173 of
structured_program.py reads `self.actions` and either copies it or
builds the literal `["verify_conditions"]`; the list owned by the program is
never written.
-/

/-- Heap of Python list objects holding strings. -/
structure PyHeap where
  lists : Nat → List String
  next : Nat

/-- Allocate a fresh list object (`list(...)` or a list display). -/
def heapAlloc (h : PyHeap) (xs : List String) : Nat × PyHeap :=
  (h.next, ⟨fun a => if a = h.next then xs else h.lists a, h.next + 1⟩)

/-- In-place mutation of the list object at address `a`. -/
def heapSet (h : PyHeap) (a : Nat) (xs : List String) : PyHeap :=
  ⟨fun b => if b = a then xs else h.lists b, h.next⟩

/-- Line 173, `actions = list(self.actions) if self.actions else
["verify_conditions"]`, at the object level: `selfActions` is the
address of the `actions` list of the program; both branches allocate. -/
def to_dsl_dict_actions (h : PyHeap) (selfActions : Nat) : Nat × PyHeap :=
  if (h.lists selfActions).isEmpty then heapAlloc h ["verify_conditions"]
  else heapAlloc h (h.lists selfActions)

/-!
Helper lemmas: a failing component makes the enclosing validator fail,
and an unknown key makes each sub-validator fail.
-/

theorem validateList_none {α : Type} (f : JValue → Option α) (xs : List JValue)
    (x : JValue) (hx : x ∈ xs) (hf : f x = none) : validateList f xs = none := by
  induction xs with
  | nil => cases hx
  | cons y ys ih =>
    rcases List.mem_cons.mp hx with rfl | hmem
    · simp [validateList, hf]
    · cases hfy : f y <;> simp [validateList, hfy, ih hmem]

theorem validateDict_none {α : Type} (f : JValue → Option α)
    (m : List (String × JValue)) (k : String) (x : JValue)
    (hx : (k, x) ∈ m) (hf : f x = none) : validateDict f m = none := by
  induction m with
  | nil => cases hx
  | cons y ys ih =>
    rcases List.mem_cons.mp hx with rfl | hmem
    · simp [validateDict, hf]
    · obtain ⟨k', v'⟩ := y
      cases hfy : f v' <;> simp [validateDict, hfy, ih hmem]

theorem validateSP_none_of_comp (kvs : List (String × JValue))
    (h : vList validateSortDefinition kvs "sorts" = none ∨
         vList validateFunctionDefinition kvs "functions" = none ∨
         vDict validateConstantDefinition kvs "constants" = none ∨
         vList validateVariableDefinition kvs "variables" = none ∨
         vList validateKnowledgeEntry kvs "knowledge_base" = none ∨
         vList validateRuleDefinition kvs "rules" = none ∨
         vList validateVerificationDefinition kvs "verifications" = none ∨
         vOptModel validateOptimizationConfig kvs "optimization" = none) :
    validateStructuredProgram (.obj kvs) = none := by
  simp only [validateStructuredProgram]
  split
  · split
    · rcases h with h|h|h|h|h|h|h|h <;> simp_all
    · rfl
  · rfl

theorem validateSortDefinition_unknown (v : JValue) (h : sortUnknown v = true) :
    validateSortDefinition v = none := by
  cases v <;> simp_all [sortUnknown, objUnknown, Bool.not_eq_true'] <;>
    simp [validateSortDefinition, h]

theorem validateFunctionDefinition_unknown (v : JValue) (h : funcUnknown v = true) :
    validateFunctionDefinition v = none := by
  cases v <;> simp_all [funcUnknown, objUnknown, Bool.not_eq_true'] <;>
    simp [validateFunctionDefinition, h]

theorem validateVariableDefinition_unknown (v : JValue) (h : varUnknown v = true) :
    validateVariableDefinition v = none := by
  cases v <;> simp_all [varUnknown, objUnknown, Bool.not_eq_true'] <;>
    simp [validateVariableDefinition, h]

theorem validateKnowledgeEntry_unknown (v : JValue) (h : kbUnknown v = true) :
    validateKnowledgeEntry v = none := by
  cases v <;> simp_all [kbUnknown, objUnknown, Bool.not_eq_true'] <;>
    simp [validateKnowledgeEntry, validateKnowledgeAssertion, h]

theorem validateQuantifiedVariable_unknown (v : JValue) (h : qvUnknown v = true) :
    validateQuantifiedVariable v = none := by
  cases v <;> simp_all [qvUnknown, objUnknown, Bool.not_eq_true'] <;>
    simp [validateQuantifiedVariable, h]

theorem validateRuleImplication_unknown (v : JValue)
    (h : objUnknown ["antecedent", "consequent"] v = true) :
    validateRuleImplication v = none := by
  cases v <;> simp_all [objUnknown, Bool.not_eq_true'] <;>
    simp [validateRuleImplication, h]

theorem validateVerificationImplication_unknown (v : JValue)
    (h : objUnknown ["antecedent", "consequent"] v = true) :
    validateVerificationImplication v = none := by
  cases v <;> simp_all [objUnknown, Bool.not_eq_true'] <;>
    simp [validateVerificationImplication, h]

theorem validateObjectiveDefinition_unknown (v : JValue)
    (h : objectiveUnknown v = true) :
    validateObjectiveDefinition v = none := by
  cases v <;> simp_all [objectiveUnknown, objUnknown, Bool.not_eq_true'] <;>
    simp [validateObjectiveDefinition, h]

theorem validateConstantDefinition_unknown (v : JValue) (h : constUnknown v = true) :
    validateConstantDefinition v = none := by
  cases v <;> simp_all [constUnknown, objUnknown, Bool.not_eq_true'] <;>
    simp [validateConstantDefinition, h]

theorem vOptQVList_none (kvs : List (String × JValue)) (k : String)
    (xs : List JValue) (hl : jlookup kvs k = some (.arr xs))
    (hv : validateList validateQuantifiedVariable xs = none) :
    vOptQVList kvs k = none := by
  simp [vOptQVList, hl, hv]

theorem vOptModel_obj_none {α : Type} (f : JValue → Option α)
    (kvs : List (String × JValue)) (k : String) (m : List (String × JValue))
    (hl : jlookup kvs k = some (.obj m)) (hf : f (.obj m) = none) :
    vOptModel f kvs k = none := by
  simp [vOptModel, hl, hf]

theorem vList_none {α : Type} (f : JValue → Option α)
    (kvs : List (String × JValue)) (k : String) (xs : List JValue)
    (hl : jlookup kvs k = some (.arr xs)) (hv : validateList f xs = none) :
    vList f kvs k = none := by
  simp [vList, hl, hv]

theorem validateRuleDefinition_comp_none (kvs : List (String × JValue))
    (h : vOptQVList kvs "forall" = none ∨
         vOptModel validateRuleImplication kvs "implies" = none) :
    validateRuleDefinition (.obj kvs) = none := by
  simp only [validateRuleDefinition]
  split
  · split
    · rcases h with h|h <;> simp_all
    · rfl
  · rfl

theorem validateVerificationDefinition_comp_none (kvs : List (String × JValue))
    (h : vOptQVList kvs "exists" = none ∨
         vOptQVList kvs "forall" = none ∨
         vOptModel validateVerificationImplication kvs "implies" = none) :
    validateVerificationDefinition (.obj kvs) = none := by
  simp only [validateVerificationDefinition]
  split
  · split
    · rcases h with h|h|h <;> simp_all
    · rfl
  · rfl

theorem validateOptimizationConfig_comp_none (kvs : List (String × JValue))
    (h : vList validateVariableDefinition kvs "variables" = none ∨
         vList validateObjectiveDefinition kvs "objectives" = none) :
    validateOptimizationConfig (.obj kvs) = none := by
  simp only [validateOptimizationConfig]
  split
  · split
    · rcases h with h|h <;> simp_all
    · rfl
  · rfl

theorem validateRuleDefinition_unknown (v : JValue) (h : ruleUnknown v = true) :
    validateRuleDefinition v = none := by
  cases v with
  | obj kvs =>
    simp only [ruleUnknown, Bool.or_eq_true] at h
    rcases h with h | h | h
    · simp only [objUnknown, Bool.not_eq_true'] at h
      simp [validateRuleDefinition, h]
    · cases hl : jlookup kvs "forall" with
      | none => simp [hl] at h
      | some w =>
        cases w <;> simp [hl] at h
        case arr xs =>
          obtain ⟨x, hx, hux⟩ := h
          exact validateRuleDefinition_comp_none kvs (Or.inl
            (vOptQVList_none kvs "forall" xs hl
              (validateList_none _ xs x hx (validateQuantifiedVariable_unknown x hux))))
    · cases hl : jlookup kvs "implies" with
      | none => simp [hl] at h
      | some w =>
        simp only [hl] at h
        cases w with
        | obj m =>
          exact validateRuleDefinition_comp_none kvs (Or.inr
            (vOptModel_obj_none validateRuleImplication kvs "implies" m hl
              (validateRuleImplication_unknown (.obj m) h)))
        | str s => simp [objUnknown] at h
        | bool b => simp [objUnknown] at h
        | num n => simp [objUnknown] at h
        | null => simp [objUnknown] at h
        | arr xs => simp [objUnknown] at h
  | str s => simp [ruleUnknown, objUnknown] at h
  | bool b => simp [ruleUnknown, objUnknown] at h
  | num n => simp [ruleUnknown, objUnknown] at h
  | null => simp [ruleUnknown, objUnknown] at h
  | arr xs => simp [ruleUnknown, objUnknown] at h

theorem validateVerificationDefinition_unknown (v : JValue)
    (h : verifUnknown v = true) : validateVerificationDefinition v = none := by
  cases v with
  | obj kvs =>
    simp only [verifUnknown, Bool.or_eq_true] at h
    rcases h with h | ((h | h) | h)
    · simp only [objUnknown, Bool.not_eq_true'] at h
      simp [validateVerificationDefinition, h]
    · cases hl : jlookup kvs "exists" with
      | none => simp [hl] at h
      | some w =>
        cases w <;> simp [hl] at h
        case arr xs =>
          obtain ⟨x, hx, hux⟩ := h
          exact validateVerificationDefinition_comp_none kvs (Or.inl
            (vOptQVList_none kvs "exists" xs hl
              (validateList_none _ xs x hx (validateQuantifiedVariable_unknown x hux))))
    · cases hl : jlookup kvs "forall" with
      | none => simp [hl] at h
      | some w =>
        cases w <;> simp [hl] at h
        case arr xs =>
          obtain ⟨x, hx, hux⟩ := h
          exact validateVerificationDefinition_comp_none kvs (Or.inr (Or.inl
            (vOptQVList_none kvs "forall" xs hl
              (validateList_none _ xs x hx (validateQuantifiedVariable_unknown x hux)))))
    · cases hl : jlookup kvs "implies" with
      | none => simp [hl] at h
      | some w =>
        simp only [hl] at h
        cases w with
        | obj m =>
          exact validateVerificationDefinition_comp_none kvs (Or.inr (Or.inr
            (vOptModel_obj_none validateVerificationImplication kvs "implies" m hl
              (validateVerificationImplication_unknown (.obj m) h))))
        | str s => simp [objUnknown] at h
        | bool b => simp [objUnknown] at h
        | num n => simp [objUnknown] at h
        | null => simp [objUnknown] at h
        | arr xs => simp [objUnknown] at h
  | str s => simp [verifUnknown, objUnknown] at h
  | bool b => simp [verifUnknown, objUnknown] at h
  | num n => simp [verifUnknown, objUnknown] at h
  | null => simp [verifUnknown, objUnknown] at h
  | arr xs => simp [verifUnknown, objUnknown] at h

theorem validateOptimizationConfig_unknown (v : JValue)
    (h : optUnknown v = true) : validateOptimizationConfig v = none := by
  cases v with
  | obj kvs =>
    simp only [optUnknown, Bool.or_eq_true] at h
    rcases h with h | h | h
    · simp only [objUnknown, Bool.not_eq_true'] at h
      simp [validateOptimizationConfig, h]
    · cases hl : jlookup kvs "variables" with
      | none => simp [hl] at h
      | some w =>
        cases w <;> simp [hl] at h
        case arr xs =>
          obtain ⟨x, hx, hux⟩ := h
          exact validateOptimizationConfig_comp_none kvs (Or.inl
            (vList_none _ kvs "variables" xs hl
              (validateList_none _ xs x hx (validateVariableDefinition_unknown x hux))))
    · cases hl : jlookup kvs "objectives" with
      | none => simp [hl] at h
      | some w =>
        cases w <;> simp [hl] at h
        case arr xs =>
          obtain ⟨x, hx, hux⟩ := h
          exact validateOptimizationConfig_comp_none kvs (Or.inr
            (vList_none _ kvs "objectives" xs hl
              (validateList_none _ xs x hx (validateObjectiveDefinition_unknown x hux))))
  | str s => simp [optUnknown, objUnknown] at h
  | bool b => simp [optUnknown, objUnknown] at h
  | num n => simp [optUnknown, objUnknown] at h
  | null => simp [optUnknown, objUnknown] at h
  | arr xs => simp [optUnknown, objUnknown] at h

theorem vDict_none {α : Type} (f : JValue → Option α)
    (kvs : List (String × JValue)) (k : String) (m : List (String × JValue))
    (hl : jlookup kvs k = some (.obj m)) (hv : validateDict f m = none) :
    vDict f kvs k = none := by
  simp [vDict, hl, hv]

/-- C1: for every input document containing a key that is not part of
the fixed schema — at the top level or inside any nested definition
(sort, function, variable, knowledge assertion, rule, verification,
objective, optimization, constant group) — validating it as a
`StructuredProgram` fails; no document with an unknown key is
accepted. -/
theorem c1_unknown_key_rejected (v : JValue) (h : docHasUnknownKey v = true) :
    validateStructuredProgram v = none := by
  cases v with
  | obj kvs =>
    simp only [docHasUnknownKey, Bool.or_eq_true] at h
    rcases h with ((((((((h | h) | h) | h) | h) | h) | h) | h) | h)
    · rw [Bool.not_eq_true'] at h
      simp [validateStructuredProgram, h]
    · cases hl : jlookup kvs "sorts" with
      | none => simp [listFieldAny, hl] at h
      | some w =>
        cases w <;> simp [listFieldAny, hl] at h
        case arr xs =>
          obtain ⟨x, hx, hux⟩ := h
          exact validateSP_none_of_comp kvs (Or.inl
            (vList_none _ kvs "sorts" xs hl
              (validateList_none _ xs x hx (validateSortDefinition_unknown x hux))))
    · cases hl : jlookup kvs "functions" with
      | none => simp [listFieldAny, hl] at h
      | some w =>
        cases w <;> simp [listFieldAny, hl] at h
        case arr xs =>
          obtain ⟨x, hx, hux⟩ := h
          exact validateSP_none_of_comp kvs (Or.inr (Or.inl
            (vList_none _ kvs "functions" xs hl
              (validateList_none _ xs x hx (validateFunctionDefinition_unknown x hux)))))
    · cases hl : jlookup kvs "constants" with
      | none => simp [hl] at h
      | some w =>
        cases w <;> simp [hl] at h
        case obj m =>
          obtain ⟨k, x, hx, hux⟩ := h
          exact validateSP_none_of_comp kvs (Or.inr (Or.inr (Or.inl
            (vDict_none _ kvs "constants" m hl
              (validateDict_none _ m k x hx (validateConstantDefinition_unknown x hux))))))
    · cases hl : jlookup kvs "variables" with
      | none => simp [listFieldAny, hl] at h
      | some w =>
        cases w <;> simp [listFieldAny, hl] at h
        case arr xs =>
          obtain ⟨x, hx, hux⟩ := h
          exact validateSP_none_of_comp kvs (Or.inr (Or.inr (Or.inr (Or.inl
            (vList_none _ kvs "variables" xs hl
              (validateList_none _ xs x hx (validateVariableDefinition_unknown x hux)))))))
    · cases hl : jlookup kvs "knowledge_base" with
      | none => simp [listFieldAny, hl] at h
      | some w =>
        cases w <;> simp [listFieldAny, hl] at h
        case arr xs =>
          obtain ⟨x, hx, hux⟩ := h
          exact validateSP_none_of_comp kvs (Or.inr (Or.inr (Or.inr (Or.inr (Or.inl
            (vList_none _ kvs "knowledge_base" xs hl
              (validateList_none _ xs x hx (validateKnowledgeEntry_unknown x hux))))))))
    · cases hl : jlookup kvs "rules" with
      | none => simp [listFieldAny, hl] at h
      | some w =>
        cases w <;> simp [listFieldAny, hl] at h
        case arr xs =>
          obtain ⟨x, hx, hux⟩ := h
          exact validateSP_none_of_comp kvs (Or.inr (Or.inr (Or.inr (Or.inr (Or.inr
            (Or.inl (vList_none _ kvs "rules" xs hl
              (validateList_none _ xs x hx (validateRuleDefinition_unknown x hux)))))))))
    · cases hl : jlookup kvs "verifications" with
      | none => simp [listFieldAny, hl] at h
      | some w =>
        cases w <;> simp [listFieldAny, hl] at h
        case arr xs =>
          obtain ⟨x, hx, hux⟩ := h
          exact validateSP_none_of_comp kvs (Or.inr (Or.inr (Or.inr (Or.inr (Or.inr
            (Or.inr (Or.inl (vList_none _ kvs "verifications" xs hl
              (validateList_none _ xs x hx (validateVerificationDefinition_unknown x hux))))))))))
    · cases hl : jlookup kvs "optimization" with
      | none => simp [hl] at h
      | some w =>
        simp only [hl] at h
        cases w with
        | obj m =>
          exact validateSP_none_of_comp kvs (Or.inr (Or.inr (Or.inr (Or.inr (Or.inr
            (Or.inr (Or.inr
              (vOptModel_obj_none validateOptimizationConfig kvs "optimization" m hl
                (validateOptimizationConfig_unknown (.obj m) h)))))))))
        | str s => simp [optUnknown, objUnknown] at h
        | bool b => simp [optUnknown, objUnknown] at h
        | num n => simp [optUnknown, objUnknown] at h
        | null => simp [optUnknown, objUnknown] at h
        | arr xs => simp [optUnknown, objUnknown] at h
  | str s => simp [docHasUnknownKey] at h
  | bool b => simp [docHasUnknownKey] at h
  | num n => simp [docHasUnknownKey] at h
  | null => simp [docHasUnknownKey] at h
  | arr xs => simp [docHasUnknownKey] at h

/-- C1 witness: a concrete document whose sort definition carries the
unknown key "typo" is flagged by the predicate and rejected. -/
theorem c1_witness :
    docHasUnknownKey (.obj [("sorts", .arr
      [.obj [("name", .str "A"), ("typo", .str "x")]])]) = true ∧
    validateStructuredProgram (.obj [("sorts", .arr
      [.obj [("name", .str "A"), ("typo", .str "x")]])]) = none :=
  ⟨rfl, c1_unknown_key_rejected _ rfl⟩

/-- C2: `to_dsl_dict` maps an empty actions list (the validation result
of a document with no actions key, third conjunct) to
`["verify_conditions"]` and passes a non-empty list through unchanged. -/
theorem c2_actions_default (p : StructuredProgram) :
    (p.actions = [] →
      jvGet (to_dsl_dict p) "actions" = some (.arr [.str "verify_conditions"])) ∧
    (p.actions ≠ [] →
      jvGet (to_dsl_dict p) "actions" = some (.arr (p.actions.map .str))) ∧
    (∀ kvs q, jlookup kvs "actions" = none →
      validateStructuredProgram (.obj kvs) = some q → q.actions = []) := by
  have key : jvGet (to_dsl_dict p) "actions" =
      some (.arr ((if p.actions.isEmpty then ["verify_conditions"]
                   else p.actions).map JValue.str)) := rfl
  refine ⟨fun h => ?_, fun h => ?_, fun kvs q hl hv => ?_⟩
  · rw [key, h]
    rfl
  · rw [key]
    cases hA : p.actions with
    | nil => exact absurd hA h
    | cons x xs => rfl
  · simp only [validateStructuredProgram] at hv
    split at hv
    · split at hv
      · cases hv
        simp_all [vStrListD, hl]
      · exact absurd hv (by simp)
    · exact absurd hv (by simp)

/-- C2 witness: concrete instances of all three parts. -/
theorem c2_witness :
    jvGet (to_dsl_dict (StructuredProgram.mk [] [] [] [] [] [] [] none []))
      "actions" = some (.arr [.str "verify_conditions"]) ∧
    jvGet (to_dsl_dict (StructuredProgram.mk [] [] [] [] [] [] [] none ["optimize"]))
      "actions" = some (.arr [.str "optimize"]) ∧
    (StructuredProgram.mk [] [] [] [] [] [] [] none []).actions = [] :=
  ⟨(c2_actions_default (StructuredProgram.mk [] [] [] [] [] [] [] none [])).1 rfl,
   (c2_actions_default
      (StructuredProgram.mk [] [] [] [] [] [] [] none ["optimize"])).2.1 (by simp),
   (c2_actions_default (StructuredProgram.mk [] [] [] [] [] [] [] none [])).2.2
     [] (StructuredProgram.mk [] [] [] [] [] [] [] none []) rfl rfl⟩

theorem strListOf_map_str (ss : List String) : strListOf (ss.map .str) = some ss := by
  induction ss with
  | nil => rfl
  | cons s rest ih => simp [strListOf, ih]

/-- C3 counterexample: a document whose actions list holds the string
"bogus" — neither "verify_conditions" nor "optimize" — is accepted by
schema validation, refuting the claimed rejection. -/
theorem c3_counterexample :
    validateStructuredProgram (.obj [("actions", .arr [.str "bogus"])]) =
      some (StructuredProgram.mk [] [] [] [] [] [] [] none ["bogus"]) ∧
    ¬ ("bogus" = "verify_conditions" ∨ "bogus" = "optimize") :=
  ⟨rfl, by decide⟩

/-- C3 (amended): schema validation puts no constraint on the action
strings: a document whose actions list is any list of strings is
accepted with exactly that list stored; membership in
`{"verify_conditions", "optimize"}` is not enforced. -/
theorem c3_amended_actions_unconstrained (ss : List String) :
    validateStructuredProgram (.obj [("actions", .arr (ss.map .str))]) =
      some (StructuredProgram.mk [] [] [] [] [] [] [] none ss) := by
  have h9 : vStrListD [("actions", JValue.arr (ss.map JValue.str))] "actions" =
      some ss := by
    have he : vStrListD [("actions", JValue.arr (ss.map JValue.str))] "actions" =
        strListOf (ss.map JValue.str) := rfl
    rw [he, strListOf_map_str]
  simp only [validateStructuredProgram]
  rw [h9]
  rfl

/-- C4 counterexample: a document declaring the sort name "A" twice is
accepted by schema validation with both copies kept, refuting the
claimed rejection of duplicate declarations. -/
theorem c4_counterexample :
    validateStructuredProgram (.obj [("sorts", .arr
      [.obj [("name", .str "A"), ("type", .str "DeclareSort")],
       .obj [("name", .str "A"), ("type", .str "DeclareSort")]])]) =
      some (StructuredProgram.mk
        [⟨"A", "DeclareSort", none, none⟩, ⟨"A", "DeclareSort", none, none⟩]
        [] [] [] [] [] [] none []) := rfl

/-- C4 (amended): `StructuredProgram` validation does not check name
uniqueness: a document declaring the same sort name twice, the same
function name twice, or the same variable name twice (for any names
and sorts) validates successfully with both declarations retained in
order. -/
theorem c4_amended_duplicates_accepted (nm ty rg so : String) :
    validateStructuredProgram (.obj [("sorts", .arr
      [.obj [("name", .str nm), ("type", .str ty)],
       .obj [("name", .str nm), ("type", .str ty)]])]) =
      some (StructuredProgram.mk
        [⟨nm, ty, none, none⟩, ⟨nm, ty, none, none⟩]
        [] [] [] [] [] [] none []) ∧
    validateStructuredProgram (.obj [("functions", .arr
      [.obj [("name", .str nm), ("domain", .arr []), ("range", .str rg)],
       .obj [("name", .str nm), ("domain", .arr []), ("range", .str rg)]])]) =
      some (StructuredProgram.mk []
        [⟨nm, [], rg, none⟩, ⟨nm, [], rg, none⟩]
        [] [] [] [] [] none []) ∧
    validateStructuredProgram (.obj [("variables", .arr
      [.obj [("name", .str nm), ("sort", .str so)],
       .obj [("name", .str nm), ("sort", .str so)]])]) =
      some (StructuredProgram.mk [] [] []
        [⟨nm, so, none⟩, ⟨nm, so, none⟩]
        [] [] [] none []) :=
  ⟨rfl, rfl, rfl⟩

/-- C5: with the structured-output path unavailable, `generate` turns a
raised chat-completion exception into a failure result carrying an
empty raw response and the exception message, and turns an extraction
failure on a successful call into a failure result carrying the full
response text and a non-empty error message; no exception propagates. -/
theorem c5_generate_error_handling
    (sa : List Message → Option (JValue × String))
    (ca : List Message → Except String String)
    (loads : String → Except String JValue)
    (bp : String → String) (q : String)
    (hsa : sa (initial_messages (bp q)) = none) :
    (∀ e, ca (initial_messages (bp q)) = .error e →
      generate sa ca loads bp q = ⟨none, "", false, some e⟩) ∧
    (∀ raw, ca (initial_messages (bp q)) = .ok raw →
      extract_json loads raw = none →
      generate sa ca loads bp q =
        ⟨none, raw, false, some "Failed to extract valid JSON from response"⟩ ∧
      "Failed to extract valid JSON from response" ≠ "") := by
  constructor
  · intro e he
    simp [generate, hsa, he]
  · intro raw hr hx
    refine ⟨?_, by decide⟩
    simp [generate, hsa, hr, hx]

/-- C5 witness: a raising chat call and an unextractable response at
concrete inputs. -/
theorem c5_witness :
    generate (fun _ => none) (fun _ => .error "boom") (fun _ => .error "x")
      id "q" = ⟨none, "", false, some "boom"⟩ ∧
    generate (fun _ => none) (fun _ => .ok "no json here") (fun _ => .error "x")
      id "q" =
      ⟨none, "no json here", false,
       some "Failed to extract valid JSON from response"⟩ :=
  ⟨(c5_generate_error_handling (fun _ => none) (fun _ => .error "boom")
      (fun _ => .error "x") id "q" rfl).1 "boom" rfl,
   ((c5_generate_error_handling (fun _ => none) (fun _ => .ok "no json here")
      (fun _ => .error "x") id "q" rfl).2 "no json here" rfl rfl).1⟩

/-- C6: in the dict returned by `to_dsl_dict`, the knowledge_base entry
is the input list mapped entrywise; a bare string maps to itself, an
assertion maps to a dict carrying its assertion text and truth value,
and validation defaults that truth value to true when the document
gave none. -/
theorem c6_knowledge_base_passthrough (p : StructuredProgram) :
    jvGet (to_dsl_dict p) "knowledge_base" =
      some (.arr (p.knowledge_base.map KnowledgeEntry.dump)) ∧
    (∀ s, KnowledgeEntry.dump (.kstr s) = .str s) ∧
    (∀ a, jvGet (KnowledgeEntry.dump (.kassert a)) "assertion" =
        some (.str a.assertion) ∧
      jvGet (KnowledgeEntry.dump (.kassert a)) "value" = some (.bool a.value)) ∧
    (∀ kvs a, validateKnowledgeEntry (.obj kvs) = some (.kassert a) →
      jlookup kvs "value" = none → a.value = true) := by
  refine ⟨rfl, fun s => rfl, fun a => ⟨rfl, rfl⟩, fun kvs a hv hl => ?_⟩
  simp only [validateKnowledgeEntry] at hv
  cases hA : validateKnowledgeAssertion (.obj kvs) with
  | none => rw [hA] at hv; exact absurd hv (by simp)
  | some a' =>
    rw [hA] at hv
    simp only [Option.some.injEq, KnowledgeEntry.kassert.injEq] at hv
    subst hv
    simp only [validateKnowledgeAssertion] at hA
    split at hA
    · split at hA
      · cases hA
        simp_all [vBoolDefault, hl]
      · exact absurd hA (by simp)
    · exact absurd hA (by simp)

/-- C6 witness: a program carrying a bare string and an explicit
assertion, plus the default-true validation at a concrete document. -/
theorem c6_witness :
    jvGet (to_dsl_dict (StructuredProgram.mk [] [] [] []
        [.kstr "P", .kassert ⟨"Q", false, none⟩] [] [] none []))
      "knowledge_base" =
      some (.arr [.str "P",
        .obj [("assertion", .str "Q"), ("value", .bool false)]]) ∧
    (KnowledgeAssertion.mk "Q" true none).value = true :=
  ⟨(c6_knowledge_base_passthrough (StructuredProgram.mk [] [] [] []
      [.kstr "P", .kassert ⟨"Q", false, none⟩] [] [] none [])).1,
   (c6_knowledge_base_passthrough (StructuredProgram.mk [] [] [] [] [] [] []
      none [])).2.2.2 [("assertion", .str "Q")] ⟨"Q", true, none⟩ rfl rfl⟩

/-- C7: the message list used by `generate_with_feedback` is exactly
the four messages system prompt, user question prompt, assistant
previous response, and a user message that is the fixed error prefix
followed by the error trace; moreover the result of
`generate_with_feedback` depends on the generator functions only
through their value at that exact list. -/
theorem c7_feedback_messages_exact (bp : String → String) (q et pr : String) :
    feedback_messages (bp q) pr (feedback_message_text et) =
      [⟨"system", STRUCTURED_SYSTEM_PROMPT⟩, ⟨"user", bp q⟩,
       ⟨"assistant", pr⟩,
       ⟨"user", "There was an error processing your response:\n" ++ et ++
         "\nPlease fix the JSON accordingly."⟩] ∧
    (feedback_messages (bp q) pr (feedback_message_text et)).length = 4 ∧
    (∀ (sa sa' : List Message → Option (JValue × String))
       (ca ca' : List Message → Except String String)
       (loads : String → Except String JValue),
      sa (feedback_messages (bp q) pr (feedback_message_text et)) =
        sa' (feedback_messages (bp q) pr (feedback_message_text et)) →
      ca (feedback_messages (bp q) pr (feedback_message_text et)) =
        ca' (feedback_messages (bp q) pr (feedback_message_text et)) →
      generate_with_feedback sa ca loads bp q et pr =
        generate_with_feedback sa' ca' loads bp q et pr) := by
  refine ⟨rfl, rfl, fun sa sa' ca ca' loads hs hc => ?_⟩
  simp only [generate_with_feedback, hs, hc]

/-- C7 witness: the four-message list at concrete inputs, and the
dependence-only-through-the-list conjunct applied to two generator
pairs that agree on that list. -/
theorem c7_witness :
    feedback_messages (id "q") "p" (feedback_message_text "t") =
      [⟨"system", STRUCTURED_SYSTEM_PROMPT⟩, ⟨"user", "q"⟩, ⟨"assistant", "p"⟩,
       ⟨"user", "There was an error processing your response:\nt" ++
         "\nPlease fix the JSON accordingly."⟩] ∧
    generate_with_feedback (fun _ => none) (fun _ => .error "e")
        (fun _ => .error "x") id "q" "t" "p" =
      generate_with_feedback
        (fun msgs => if msgs.length = 4 then none else some (.obj [], "r"))
        (fun _ => .error "e") (fun _ => .error "x") id "q" "t" "p" :=
  ⟨(c7_feedback_messages_exact id "q" "t" "p").1,
   (c7_feedback_messages_exact id "q" "t" "p").2.2
     (fun _ => none)
     (fun msgs => if msgs.length = 4 then none else some (.obj [], "r"))
     (fun _ => .error "e") (fun _ => .error "e") (fun _ => .error "x") rfl rfl⟩

/-- C8: the actions list placed in the dict returned by `to_dsl_dict`
lives at a freshly allocated address: the call leaves the actions
list owned by the program untouched, and mutating the returned list
can never alter it. -/
theorem c8_actions_fresh_copy (h : PyHeap) (a : Nat) (ha : a < h.next) :
    (to_dsl_dict_actions h a).1 ≠ a ∧
    (to_dsl_dict_actions h a).2.lists a = h.lists a ∧
    (∀ xs, (heapSet (to_dsl_dict_actions h a).2 (to_dsl_dict_actions h a).1 xs).lists a
      = h.lists a) := by
  have hne : a ≠ h.next := Nat.ne_of_lt ha
  by_cases he : (h.lists a).isEmpty <;>
    simp [to_dsl_dict_actions, heapAlloc, heapSet, he, hne, Ne.symm hne]

/-- C8 witness: a one-object heap whose program list sits at address 0. -/
theorem c8_witness :
    (0 < (PyHeap.mk (fun _ => ["x"]) 1).next) ∧
    (to_dsl_dict_actions (PyHeap.mk (fun _ => ["x"]) 1) 0).1 ≠ 0 ∧
    (to_dsl_dict_actions (PyHeap.mk (fun _ => ["x"]) 1) 0).2.lists 0 =
      (PyHeap.mk (fun _ => ["x"]) 1).lists 0 ∧
    (∀ xs, (heapSet (to_dsl_dict_actions (PyHeap.mk (fun _ => ["x"]) 1) 0).2
        (to_dsl_dict_actions (PyHeap.mk (fun _ => ["x"]) 1) 0).1 xs).lists 0 =
      (PyHeap.mk (fun _ => ["x"]) 1).lists 0) :=
  ⟨by decide, c8_actions_fresh_copy (PyHeap.mk (fun _ => ["x"]) 1) 0 (by decide)⟩

/-- C9: every result of `generate` and of `generate_with_feedback` has
success true exactly when a json program is present, and a successful
result carries no error message. -/
theorem c9_result_invariant
    (sa : List Message → Option (JValue × String))
    (ca : List Message → Except String String)
    (loads : String → Except String JValue)
    (bp : String → String) (q et pr : String) :
    ((generate sa ca loads bp q).success = true ↔
      (generate sa ca loads bp q).json_program.isSome = true) ∧
    ((generate sa ca loads bp q).success = true →
      (generate sa ca loads bp q).error = none) ∧
    ((generate_with_feedback sa ca loads bp q et pr).success = true ↔
      (generate_with_feedback sa ca loads bp q et pr).json_program.isSome = true) ∧
    ((generate_with_feedback sa ca loads bp q et pr).success = true →
      (generate_with_feedback sa ca loads bp q et pr).error = none) := by
  have hg : ∀ r : GenerationResult,
      (r = generate sa ca loads bp q ∨
       r = generate_with_feedback sa ca loads bp q et pr) →
      (r.success = true ↔ r.json_program.isSome = true) ∧
      (r.success = true → r.error = none) := by
    intro r hr
    have : ∀ (msgs : List Message) (fm : String),
        r = (match sa msgs with
             | some (jp, raw) => (⟨some jp, raw, true, none⟩ : GenerationResult)
             | none =>
               match ca msgs with
               | .error exc => ⟨none, "", false, some exc⟩
               | .ok raw =>
                 match extract_json loads raw with
                 | some jp =>
                   if jvTruthy jp then ⟨some jp, raw, true, none⟩
                   else ⟨none, raw, false, some fm⟩
                 | none => ⟨none, raw, false, some fm⟩) →
        (r.success = true ↔ r.json_program.isSome = true) ∧
        (r.success = true → r.error = none) := by
      intro msgs fm hr'
      subst hr'
      rcases hs : sa msgs with _ | ⟨jp, raw⟩
      · rcases hc : ca msgs with e | raw
        · simp [hs, hc]
        · rcases hx : extract_json loads raw with _ | jp
          · simp [hs, hc, hx]
          · by_cases ht : jvTruthy jp <;> simp [hs, hc, hx, ht]
      · simp [hs]
    rcases hr with hr | hr
    · exact this (initial_messages (bp q))
        "Failed to extract valid JSON from response" (by rw [hr]; rfl)
    · exact this (feedback_messages (bp q) pr (feedback_message_text et))
        "Failed to extract valid JSON from feedback response" (by rw [hr]; rfl)
  obtain ⟨h1, h2⟩ := hg (generate sa ca loads bp q) (Or.inl rfl)
  obtain ⟨h3, h4⟩ := hg (generate_with_feedback sa ca loads bp q et pr) (Or.inr rfl)
  exact ⟨h1, h2, h3, h4⟩

/-- C9 witness: both functions at a succeeding structured call. -/
theorem c9_witness :
    (generate (fun _ => some (.obj [("k", .num 1)], "raw")) (fun _ => .error "e")
      (fun _ => .error "x") id "q").error = none ∧
    (generate_with_feedback (fun _ => some (.obj [("k", .num 1)], "raw"))
      (fun _ => .error "e") (fun _ => .error "x") id "q" "t" "p").error = none :=
  ⟨(c9_result_invariant (fun _ => some (.obj [("k", .num 1)], "raw"))
      (fun _ => .error "e") (fun _ => .error "x") id "q" "t" "p").2.1 rfl,
   (c9_result_invariant (fun _ => some (.obj [("k", .num 1)], "raw"))
      (fun _ => .error "e") (fun _ => .error "x") id "q" "t" "p").2.2.2 rfl⟩

/-- C10: when the fenced pattern matches, only its captured group is
parsed — an invalid group yields `none` without the fallback ever
being consulted, a valid one yields its parse; the bare-brace fallback
is parsed only when no fenced block matches, and the function yields
`none` when that too fails or no brace span exists. -/
theorem c10_extract_json_policy (loads : String → Except String JValue) (s : String) :
    (∀ g e, fencedSearch s.toList = some g → loads (String.mk g) = .error e →
      extract_json loads s = none) ∧
    (∀ g j, fencedSearch s.toList = some g → loads (String.mk g) = .ok j →
      extract_json loads s = some j) ∧
    (fencedSearch s.toList = none → ∀ g, braceSearch s.toList = some g →
      extract_json loads s =
        (match loads (String.mk g) with | .ok j => some j | .error _ => none)) ∧
    (fencedSearch s.toList = none → braceSearch s.toList = none →
      extract_json loads s = none) := by
  refine ⟨fun g e hg hl => ?_, fun g j hg hl => ?_, fun hf g hg => ?_,
    fun hf hb => ?_⟩
  · simp only [extract_json, hg, hl]
  · simp only [extract_json, hg, hl]
  · simp only [extract_json, hf, hg]
  · simp only [extract_json, hf, hb]

/-- C10 witness: a text holding an invalid fenced block followed by a
parseable brace span is still rejected — the fallback is skipped —
while the same loads function succeeds on the fallback span. -/
theorem c10_witness :
    (braceSearch ("```json \x7bbad\x7d ``` \x7b\"ok\": 1\x7d").toList).isSome
      = true ∧
    (fun t => if t = "\x7bbad\x7d" then Except.error "Expecting value"
      else Except.ok (JValue.obj [("ok", JValue.num 1)]))
      (String.mk ("\x7bbad\x7d ``` \x7b\"ok\": 1\x7d").toList) =
      .ok (JValue.obj [("ok", JValue.num 1)]) ∧
    extract_json
      (fun t => if t = "\x7bbad\x7d" then Except.error "Expecting value"
        else Except.ok (JValue.obj [("ok", JValue.num 1)]))
      "```json \x7bbad\x7d ``` \x7b\"ok\": 1\x7d" = none :=
  ⟨rfl, rfl,
   (c10_extract_json_policy
      (fun t => if t = "\x7bbad\x7d" then Except.error "Expecting value"
        else Except.ok (JValue.obj [("ok", JValue.num 1)]))
      "```json \x7bbad\x7d ``` \x7b\"ok\": 1\x7d").1
     ("\x7bbad\x7d").toList "Expecting value" rfl rfl⟩
